import Mathlib

/-!
Shallow embedding of the DART proxy (`src/main.py`) — a single-endpoint
FastAPI proxy for the OpenDART financial-disclosure API.

The embedding models the pure request-shaping logic of the proxy:
  * statement-type (`sj_div`) parsing, effective-set computation and the
    missing-set computation (`_parse_sj_div_requested`, `_effective_sj_div`,
    `_missing_required_from_rows`),
  * the cursor/limit pagination of `_fnltt_all_page`,
  * the statement-cache fill step with its upstream-status guard
    (`_guard_dart_status`),
  * the corporate-identifier resolver (`_refresh_corp_map_if_needed`,
    `_corp_from_stock_code`, `_resolve_stock_code`) with the corpCode
    manifest parsed into a ticker-keyed mapping,
  * the annual-filings lister's lookback clamping
    (`_list_annual_business_reports`), and
  * the route-level validation of the `/v1/dart` handler.

Network I/O is modeled by passing the upstream response (or its failure) as
an explicit argument; the process-global caches become explicit state values
threaded through the functions.  Timestamps are integers (seconds);
`(now - ts).total_seconds()` becomes integer subtraction.
-/

deriving instance DecidableEq for Except

namespace DartProxy

/-! ### Python string primitives

`str.upper()` is modeled per-character with `Char.toUpper`, which performs
exactly the ASCII mapping (the statement-type codes and status codes the
proxy compares against are all ASCII).  A string is rebuilt from its
character list so that the map is a plain `List.map`.
-/

/-- Python `s.upper()`: uppercase every character (ASCII letters). -/
def pyUpper (s : String) : String :=
  String.mk (s.data.map Char.toUpper)

/-- Python `s.strip()`: remove leading and trailing whitespace. -/
def pyStrip (s : String) : String :=
  String.mk (((s.data.dropWhile Char.isWhitespace).reverse.dropWhile
    Char.isWhitespace).reverse)

/-- Code-point lexicographic `≤` on char lists (Python string comparison). -/
def lexLe : List Char → List Char → Bool
  | [], _ => true
  | _ :: _, [] => false
  | a :: as, b :: bs =>
    if a.toNat < b.toNat then true
    else if a.toNat = b.toNat then lexLe as bs
    else false

/-- Python `s1 <= s2` on strings. -/
def strLe (a b : String) : Bool :=
  lexLe a.data b.data

/-- Python `s.split(",")`: split a char list at every comma, keeping empty
pieces (so `"".split(",") = [""]`). -/
def splitCommaAux : List Char → List Char → List (List Char)
  | [], acc => [acc.reverse]
  | c :: cs, acc =>
    if c = ',' then acc.reverse :: splitCommaAux cs []
    else splitCommaAux cs (c :: acc)

/-- Python `s.split(",")` on strings. -/
def pySplitComma (s : String) : List String :=
  (splitCommaAux s.data []).map String.mk

/-- Python truthiness of an `Optional[str]`: `None` and `""` are falsy. -/
def pyTruthy : Option String → Bool
  | none => false
  | some s => s ≠ ""

/-- Python `s.isdigit()` for ASCII: nonempty and all characters digits. -/
def pyIsDigit (s : String) : Bool :=
  !s.isEmpty && s.data.all Char.isDigit

/-! ### Constants (`main.py` lines 44-62) -/

def FS_CACHE_TTL_SEC : Int := 6 * 60 * 60

def CORP_MAP_TTL_SEC : Int := 24 * 60 * 60

def MAX_LIMIT : Int := 500

def MIN_LIMIT : Int := 50

def FS_DIV_LOCK : String := "CFS"

/-- Insert a string into a `strLe`-sorted list, keeping it sorted. -/
def insortStr (x : String) : List String → List String
  | [] => [x]
  | y :: ys => if strLe x y then x :: y :: ys else y :: insortStr x ys

/-- Python `sorted(...)` on a list of strings (insertion sort; only the
membership and sortedness of the result matter to the proxy). -/
def pySorted (l : List String) : List String :=
  l.foldr insortStr []

/-- Python `sorted(list(s))` for a set `s` given by a membership-listing:
deduplicate, then sort. -/
def pySortedSet (l : List String) : List String :=
  pySorted l.dedup

/-- `SJ_DIV_ALLOWLIST_DEFAULT = {"BS", "IS", "CIS", "SCE", "CF"}` — a Python
set, modeled as a duplicate-free list used only through membership. -/
def SJ_DIV_ALLOWLIST_DEFAULT : List String :=
  ["BS", "IS", "CIS", "SCE", "CF"]

/-- `REQUIRED_SJ_DIV = ["BS", "IS", "CIS", "SCE", "CF"]` (a Python list). -/
def REQUIRED_SJ_DIV : List String :=
  ["BS", "IS", "CIS", "SCE", "CF"]

def ANNUAL_REPRT_CODE_LOCK : String := "11011"

def ANNUAL_PBLNTF_DETAIL_TY : String := "A001"

/-! ### Statement rows and the sj_div helpers (`main.py` lines 104-156) -/

/-- A row of the upstream `fnlttSinglAcntAll` response: the proxy only ever
inspects the `sj_div` field (possibly absent); every other field is opaque
payload, represented by a natural number so rows are distinguishable. -/
structure StatementRow where
  sj_div : Option String
  payload : Nat
deriving DecidableEq, Repr

/-- `str(r.get("sj_div") or "").upper()`: the row's statement-type tag as the
code normalizes it — absent/empty becomes `""`, then uppercased. -/
def rowTag (r : StatementRow) : String :=
  pyUpper (r.sj_div.getD "")

/-- `_required_sj_set()` (line 104). -/
def required_sj_set : List String :=
  REQUIRED_SJ_DIV

/-- The comma-token list `[x.strip().upper() for x in s.split(",") if x.strip()]`. -/
def commaTokens (s : String) : List String :=
  ((((pySplitComma s).map pyStrip).filter (fun x => x ≠ "")).map pyUpper)

/-- `_parse_sj_div_requested` (lines 124-136): the verbatim request list.
A single `sj_div` wins; otherwise a comma list `sj_div_in`; otherwise (and
when the comma list parses to nothing) the required 5-member list. -/
def parse_sj_div_requested (sj_div sj_div_in : Option String) : List String :=
  if pyTruthy sj_div then
    [pyUpper (pyStrip (sj_div.getD ""))]
  else if pyTruthy sj_div_in then
    let parsed := commaTokens (sj_div_in.getD "")
    if parsed ≠ [] then parsed else required_sj_set
  else
    required_sj_set

/-- `_effective_sj_div` (lines 139-146):
`sorted(list(set(x.upper() for x in requested) ∩ allowlist))`, falling back to
the required 5-member list when the intersection is empty. -/
def effective_sj_div (requested : List String) : List String :=
  let eff := pySortedSet ((requested.map pyUpper).filter
    (fun x => x ∈ SJ_DIV_ALLOWLIST_DEFAULT))
  if eff ≠ [] then eff else required_sj_set

/-- `_missing_required_from_rows` (lines 149-156): the members of the required
5-member set whose tag appears on no raw row, sorted.  Python computes
`sorted(list(set(REQUIRED) - (present ∩ set(REQUIRED))))`, which is the same
set as `REQUIRED` minus the present tags. -/
def missing_required_from_rows (rows : List StatementRow) : List String :=
  let present := rows.map rowTag
  pySortedSet (REQUIRED_SJ_DIV.filter (fun t => t ∉ present))

/-! ### The fnltt_all page computation (`main.py` lines 363-404)

`fnlttAllPageCore` models the part of `_fnltt_all_page` that runs after the
cache entry is in hand: `rows = cached.get("list") or []` is passed in as
`rows`.  Python's slice `filtered[cursor:end]` with `0 ≤ cursor` and
`end ≤ len(filtered)` is `(filtered.take end).drop cursor`.  `cursor` is a
natural number because the route rejects `cursor < 0` before this point. -/

structure PageResult where
  requested : List String
  effective : List String
  missing : List String
  scope_allowlist : List String
  cursor : Nat
  limit : Nat
  next_cursor : Option Nat
  total_rows : Nat
  page : List StatementRow
deriving DecidableEq, Repr

def fnlttAllPageCore (rows : List StatementRow) (cursor limit : Nat)
    (sj_div sj_div_in : Option String) : PageResult :=
  let requested := parse_sj_div_requested sj_div sj_div_in
  let effective := effective_sj_div requested
  let missing := missing_required_from_rows rows
  let allowlist := effective.map pyUpper
  let filtered := rows.filter (fun r => rowTag r ∈ allowlist)
  let total_rows := filtered.length
  let e := min (cursor + limit) total_rows
  let page := (filtered.take e).drop cursor
  { requested := requested
    effective := effective
    missing := missing
    scope_allowlist := pySortedSet allowlist
    cursor := cursor
    limit := limit
    next_cursor := if e < total_rows then some e else none
    total_rows := total_rows
    page := page }

/-- The filtered sequence used by `_fnltt_all_page` (line 374). -/
def fnlttFiltered (rows : List StatementRow) (sj_div sj_div_in : Option String) :
    List StatementRow :=
  let effective := effective_sj_div (parse_sj_div_requested sj_div sj_div_in)
  rows.filter (fun r => rowTag r ∈ effective.map pyUpper)

/-- One page of the pagination algorithm on an already-filtered sequence:
the returned slice and the `next_cursor`. -/
def pageAt (l : List StatementRow) (cursor limit : Nat) :
    List StatementRow × Option Nat :=
  let total := l.length
  let e := min (cursor + limit) total
  ((l.take e).drop cursor, if e < total then some e else none)

/-- Follow `next_cursor` from `cursor` and concatenate every page.  The route
enforces `50 ≤ limit`, hence `0 < limit`; the guard makes the recursion
well-founded (with `limit = 0` the code would loop forever re-serving an
empty page at the same cursor). -/
def collectPages (l : List StatementRow) (limit cursor : Nat) : List StatementRow :=
  if h : 0 < limit then
    (pageAt l cursor limit).1 ++
      (match hnc : (pageAt l cursor limit).2 with
       | none => []
       | some c => collectPages l limit c)
  else []
termination_by l.length - cursor
decreasing_by
  unfold pageAt at hnc
  simp only at hnc
  split at hnc
  · cases hnc
    omega
  · cases hnc

/-! ### Errors and the upstream status guard (`main.py` lines 175-186)

`HTTPException(status_code, detail)` and `RuntimeError(msg)` become explicit
error values; an `httpx` transport/HTTP failure (raised by
`r.raise_for_status()` or the transport itself, and caught nowhere in the
file) is a third constructor. -/

inductive ProxyError where
  | http (code : Nat) (detail : String)
  | runtime (msg : String)
  | transport (msg : String)
deriving DecidableEq, Repr

/-- An upstream JSON response: its embedded `status` / `message` fields and
its `list` of rows (empty when the field is absent or null, matching
`data.get("list") or []`). -/
structure UpstreamResp where
  status : String
  message : String
  rows : List StatementRow
deriving DecidableEq, Repr

/-- `_guard_dart_status` (lines 175-186): accept status `"000"`; accept
`"013"` only when `allow_013_empty`; otherwise raise 502. -/
def guard_dart_status (data : UpstreamResp) (allow_013_empty : Bool) :
    Except ProxyError Unit :=
  if data.status = "000" then
    Except.ok ()
  else if allow_013_empty && data.status = "013" then
    Except.ok ()
  else
    Except.error (ProxyError.http 502
      ("OpenDART status=" ++ data.status ++ " message=" ++ data.message))

/-! ### The statement-cache fill step (`main.py` lines 338-361)

The cache is keyed; everything in the fill step is per-key, so the step is
modeled on the single entry for the request's key.  The entry is the cached
response together with its `FS_CACHE_TS` timestamp; `none` is a miss.  The
upstream fetch result is passed in as `fetched`; a transport failure would
raise before `_guard_dart_status` runs and is covered by the claims about
the guard only through statuses, so `fetched` here is a delivered JSON body.
The function returns the response used to serve the page (or the error that
aborts the request) together with the entry after the step. -/

def fnlttFetchInstall (entry : Option (UpstreamResp × Int)) (now : Int)
    (fetched : UpstreamResp) :
    Except ProxyError UpstreamResp × Option (UpstreamResp × Int) :=
  match guard_dart_status fetched true with
  | Except.error e => (Except.error e, entry)
  | Except.ok _ =>
    let f := if fetched.status = "013" then { fetched with rows := [] } else fetched
    (Except.ok f, some (f, now))

/-- Freshness test of lines 338-341: refetch when the entry is absent or its
age exceeds `FS_CACHE_TTL_SEC`. -/
def fnlttCacheStep (entry : Option (UpstreamResp × Int)) (now : Int)
    (fetched : UpstreamResp) :
    Except ProxyError UpstreamResp × Option (UpstreamResp × Int) :=
  match entry with
  | some (c, ts) =>
    if now - ts > FS_CACHE_TTL_SEC then fnlttFetchInstall entry now fetched
    else (Except.ok c, some (c, ts))
  | none => fnlttFetchInstall entry now fetched

/-- `_fnltt_all_page` after the corp lookup: cache step, then the pure page
computation on `cached.get("list") or []`. -/
def fnltt_all_page (entry : Option (UpstreamResp × Int)) (now : Int)
    (fetched : UpstreamResp) (cursor limit : Nat)
    (sj_div sj_div_in : Option String) :
    Except ProxyError PageResult × Option (UpstreamResp × Int) :=
  match fnlttCacheStep entry now fetched with
  | (Except.error e, entry2) => (Except.error e, entry2)
  | (Except.ok cached, entry2) =>
    (Except.ok (fnlttAllPageCore cached.rows cursor limit sj_div sj_div_in), entry2)

/-! ### The corporate-identifier resolver (`main.py` lines 189-259)

`CORP_MAP` is a Python dict keyed by stock code.  The code only reads it via
`CORP_MAP.get(stock_code)` and truthiness (`and CORP_MAP`), so it is modeled
as a duplicate-free association list with Python assignment semantics:
`dictInsert` replaces the binding for an existing key. -/

/-- The per-ticker record stored in `CORP_MAP` (lines 215-220). -/
structure CorpEntry where
  corp_code : String
  corp_name : String
  stock_code : String
  modify_date : String
deriving DecidableEq, Repr

/-- Python `m[k] = v` on a dict, observationally: the new binding for `k`
shadows any earlier one.  The code reads `CORP_MAP` only through
`CORP_MAP.get` (most-recent binding) and truthiness (nonempty iff an insert
happened), and both agree with Python dict semantics under this model. -/
def dictInsert (m : List (String × CorpEntry)) (k : String) (v : CorpEntry) :
    List (String × CorpEntry) :=
  (k, v) :: m

/-- Python `m.get(k)` on a dict: the most recent binding for `k`. -/
def dictGet (m : List (String × CorpEntry)) (k : String) : Option CorpEntry :=
  (m.find? (fun p => p.1 = k)).map Prod.snd

/-- One `<list>` node of the decompressed corpCode XML: each field is
`findtext(...)`, which is `none` when the child element is absent. -/
structure XmlNode where
  corp_code : Option String
  corp_name : Option String
  stock_code : Option String
  modify_date : Option String
deriving DecidableEq, Repr

/-- `(node.findtext(tag) or "").strip()`. -/
def fieldText (f : Option String) : String :=
  pyStrip (f.getD "")

/-- The length filter of line 214: stock code exactly 6 characters and corp
code exactly 8. -/
def recordValid (n : XmlNode) : Bool :=
  (fieldText n.stock_code).length = 6 && (fieldText n.corp_code).length = 8

/-- The dict value built on lines 215-220. -/
def entryOf (n : XmlNode) : CorpEntry :=
  { corp_code := fieldText n.corp_code
    corp_name := fieldText n.corp_name
    stock_code := fieldText n.stock_code
    modify_date := fieldText n.modify_date }

/-- The mapping built by the parse loop of lines 207-220: fold the records in
document order, inserting each valid one keyed by its stock code. -/
def buildCorpMap (nodes : List XmlNode) : List (String × CorpEntry) :=
  nodes.foldl
    (fun m n => if recordValid n then dictInsert m (fieldText n.stock_code) (entryOf n) else m)
    []

/-- The resolver's global state: `CORP_MAP` and `CORP_MAP_TS`. -/
structure ResolverState where
  corp_map : List (String × CorpEntry)
  corp_map_ts : Option Int
deriving DecidableEq, Repr

/-- The outcome of the manifest download + unzip + XML parse, passed in as an
explicit argument: the transport can fail, the zip can contain no XML, or a
list of `<list>` nodes is parsed. -/
inductive ManifestFetch where
  | transportError (msg : String)
  | noXml
  | parsed (nodes : List XmlNode)
deriving DecidableEq, Repr

/-- Result of a refresh attempt: the error if one was raised, the state after
the attempt, and whether the manifest fetch was performed. -/
structure RefreshOutcome where
  err : Option ProxyError
  state : ResolverState
  fetchPerformed : Bool
deriving DecidableEq, Repr

/-- The refresh body of lines 197-226, entered after the freshness check. -/
def doCorpRefresh (st : ResolverState) (now : Int) (fetch : ManifestFetch) :
    RefreshOutcome :=
  match fetch with
  | ManifestFetch.transportError msg =>
    { err := some (ProxyError.transport msg), state := st, fetchPerformed := true }
  | ManifestFetch.noXml =>
    { err := some (ProxyError.runtime "corpCode zip has no XML file")
      state := st, fetchPerformed := true }
  | ManifestFetch.parsed nodes =>
    let m := buildCorpMap nodes
    if m = [] then
      { err := some (ProxyError.runtime "corpCode parse produced empty mapping")
        state := st, fetchPerformed := true }
    else
      { err := none
        state := { corp_map := m, corp_map_ts := some now }
        fetchPerformed := true }

/-- `_refresh_corp_map_if_needed` (lines 189-226): return unchanged when
`CORP_MAP_TS` is set, the snapshot is younger than `CORP_MAP_TTL_SEC`, and
`CORP_MAP` is nonempty; otherwise run the refresh body. -/
def refresh_corp_map_if_needed (st : ResolverState) (now : Int)
    (fetch : ManifestFetch) : RefreshOutcome :=
  match st.corp_map_ts with
  | some ts =>
    if now - ts < CORP_MAP_TTL_SEC ∧ st.corp_map ≠ [] then
      { err := none, state := st, fetchPerformed := false }
    else
      doCorpRefresh st now fetch
  | none => doCorpRefresh st now fetch

/-- Result of a ticker lookup: the value or error, the resolver state after
the call, and whether the manifest fetch was performed. -/
structure CorpLookupOutcome where
  result : Except ProxyError CorpEntry
  state : ResolverState
  fetchPerformed : Bool
deriving DecidableEq, Repr

/-- `_corp_from_stock_code` (lines 229-235): refresh if needed, then a pure
`CORP_MAP.get`; an absent ticker raises 404. -/
def corp_from_stock_code (st : ResolverState) (now : Int) (fetch : ManifestFetch)
    (stock_code : String) : CorpLookupOutcome :=
  let r := refresh_corp_map_if_needed st now fetch
  match r.err with
  | some e => { result := Except.error e, state := r.state, fetchPerformed := r.fetchPerformed }
  | none =>
    match dictGet r.state.corp_map stock_code with
    | some info =>
      { result := Except.ok info, state := r.state, fetchPerformed := r.fetchPerformed }
    | none =>
      { result := Except.error (ProxyError.http 404 ("Unknown stock_code: " ++ stock_code))
        state := r.state, fetchPerformed := r.fetchPerformed }

/-- The `company.json` upstream response used by `op=resolve`. -/
structure CompanyResp where
  status : String
  message : String
  acc_mt : Option String
deriving DecidableEq, Repr

/-- The guard of lines 175-186 applied to a `company.json` body. -/
def guard_company_status (comp : CompanyResp) : Except ProxyError Unit :=
  if comp.status = "000" then Except.ok ()
  else
    Except.error (ProxyError.http 502
      ("OpenDART status=" ++ comp.status ++ " message=" ++ comp.message))

/-- The `op=resolve` response payload (lines 248-259). -/
structure ResolveResponse where
  status : String
  message : String
  stock_code : String
  corp_code : String
  corp_name : String
  modify_date : String
  acc_mt : Option String
deriving DecidableEq, Repr

/-- Outcome of `_resolve_stock_code`: result, state after, and which upstream
calls were performed. -/
structure ResolveOutcome where
  result : Except ProxyError ResolveResponse
  state : ResolverState
  manifestFetchPerformed : Bool
  companyFetchPerformed : Bool
deriving DecidableEq, Repr

/-- `_resolve_stock_code` (lines 238-259): ticker lookup, then an
unconditional `company.json` fetch (`comp`), then the status guard with
`allow_013_empty=False`. -/
def resolve_stock_code (st : ResolverState) (now : Int) (fetch : ManifestFetch)
    (comp : CompanyResp) (stock_code : String) : ResolveOutcome :=
  let c := corp_from_stock_code st now fetch stock_code
  match c.result with
  | Except.error e =>
    { result := Except.error e, state := c.state
      manifestFetchPerformed := c.fetchPerformed, companyFetchPerformed := false }
  | Except.ok info =>
    match guard_company_status comp with
    | Except.error e =>
      { result := Except.error e, state := c.state
        manifestFetchPerformed := c.fetchPerformed, companyFetchPerformed := true }
    | Except.ok _ =>
      { result := Except.ok
          { status := comp.status
            message := comp.message
            stock_code := stock_code
            corp_code := info.corp_code
            corp_name := info.corp_name
            modify_date := info.modify_date
            acc_mt := comp.acc_mt }
        state := c.state
        manifestFetchPerformed := c.fetchPerformed
        companyFetchPerformed := true }

/-! ### The annual filings lister (`main.py` lines 262-317)

Only the parts the claims touch are modeled: the clamp of `lookback_years`,
the fixed upstream query parameters, the status guard, and the response
fields `lookback_years` / `items` (items pass through opaquely). -/

/-- The upstream `list.json` query parameters assembled on lines 273-285;
`bgn_de` is `_years_ago_yyyymmdd(lookback_years)` after the clamp, recorded
here as the year count actually used. -/
structure ListParams where
  lookback_years_used : Int
  last_reprt_at : String
  pblntf_ty : String
  pblntf_detail_ty : String
  sort_field : String
  sort_mth : String
  page_no : String
  page_count : String
deriving DecidableEq, Repr

/-- `lookback_years = max(3, min(10, int(lookback_years)))` (line 271). -/
def clampLookback (lookback_years : Int) : Int :=
  max 3 (min 10 lookback_years)

def listParams (lookback_years : Int) : ListParams :=
  { lookback_years_used := clampLookback lookback_years
    last_reprt_at := "Y"
    pblntf_ty := "A"
    pblntf_detail_ty := ANNUAL_PBLNTF_DETAIL_TY
    sort_field := "date"
    sort_mth := "desc"
    page_no := "1"
    page_count := "100" }

/-- The `op=list` response payload (lines 304-317); `items` keeps the
upstream rows opaquely. -/
structure ListResponse where
  status : String
  message : String
  lookback_years : Int
  items : List StatementRow
deriving DecidableEq, Repr

/-- `_list_annual_business_reports` (lines 262-317) given the upstream
`list.json` body: clamp, guard (no 013 allowance), echo the clamp. -/
def list_annual_business_reports (lookback_years : Int) (data : UpstreamResp) :
    Except ProxyError ListResponse :=
  let ly := clampLookback lookback_years
  match guard_dart_status data false with
  | Except.error e => Except.error e
  | Except.ok _ =>
    Except.ok
      { status := data.status
        message := data.message
        lookback_years := ly
        items := data.rows }

/-! ### Route-level validation (`main.py` lines 438-488)

The `dart` handler's validation chain before dispatch, as a function from
the request parameters to the first rejection (`none` = accepted).
`lookback_years` is carried as a parameter to record that no check reads
it. -/

structure DartParams where
  op : String
  stock_code : String
  lookback_years : Int
  bsns_year : Option String
  reprt_code : Option String
  fs_div : String
  sj_div : Option String
  sj_div_in : Option String
  cursor : Int
  limit : Int
deriving DecidableEq, Repr

def dartRouteValidate (p : DartParams) : Option ProxyError :=
  if ¬ (p.op = "resolve" ∨ p.op = "list" ∨ p.op = "fnltt_all") then
    some (ProxyError.http 400 "op must be resolve | list | fnltt_all")
  else if ¬ (pyIsDigit p.stock_code ∧ p.stock_code.length = 6) then
    some (ProxyError.http 400 "stock_code must be 6 digits")
  else
    let fs := pyUpper (pyStrip p.fs_div)
    if fs ≠ "" ∧ fs ≠ "CFS" ∧ fs ≠ "OFS" then
      some (ProxyError.http 400 "fs_div must be CFS or OFS")
    else if p.cursor < 0 then
      some (ProxyError.http 400 "cursor must be >= 0")
    else if p.limit < MIN_LIMIT ∨ p.limit > MAX_LIMIT then
      some (ProxyError.http 400 "limit must be 50..500")
    else if p.op ≠ "fnltt_all" ∧ (pyTruthy p.sj_div ∨ pyTruthy p.sj_div_in) then
      some (ProxyError.http 400 "sj_div/sj_div_in is only allowed when op=fnltt_all")
    else
      none

/-! ### Helper lemmas -/

theorem char_toNat_ofNat (n : Nat) (h : n < 55296) : (Char.ofNat n).toNat = n := by
  have hv : n.isValidChar := Or.inl h
  simp only [Char.ofNat, dif_pos hv, Char.ofNatAux, Char.toNat, UInt32.toNat]
  simp

/-- ASCII uppercasing is idempotent on characters. -/
theorem char_toUpper_idem (c : Char) : c.toUpper.toUpper = c.toUpper := by
  by_cases h : 97 ≤ c.toNat ∧ c.toNat ≤ 122
  · have h1 : c.toUpper = Char.ofNat (c.toNat - 32) := by
      simp only [Char.toUpper]
      rw [if_pos h]
    have h2 : (Char.ofNat (c.toNat - 32)).toNat = c.toNat - 32 :=
      char_toNat_ofNat _ (by omega)
    rw [h1]
    simp only [Char.toUpper, h2]
    rw [if_neg (by omega)]
  · have h1 : c.toUpper = c := by
      simp only [Char.toUpper]
      rw [if_neg h]
    rw [h1, h1]

/-- `pyUpper` is idempotent. -/
theorem pyUpper_idem (s : String) : pyUpper (pyUpper s) = pyUpper s := by
  simp [pyUpper, List.map_map, Function.comp_def, char_toUpper_idem]

/-- The requested list produced by `parse_sj_div_requested` is already
uppercased: re-uppercasing it is the identity. -/
theorem parse_requested_upper_fixed (sj_div sj_div_in : Option String) :
    (parse_sj_div_requested sj_div sj_div_in).map pyUpper
      = parse_sj_div_requested sj_div sj_div_in := by
  unfold parse_sj_div_requested
  split
  · simp [pyUpper_idem]
  · split
    · dsimp only
      split
      · simp [commaTokens, List.map_map, Function.comp_def, pyUpper_idem]
      · decide
    · decide

theorem insortStr_ne_nil (x : String) (l : List String) : insortStr x l ≠ [] := by
  cases l with
  | nil => simp [insortStr]
  | cons y ys =>
    simp only [insortStr]
    split <;> simp

theorem mem_insortStr (x y : String) (l : List String) :
    y ∈ insortStr x l ↔ y = x ∨ y ∈ l := by
  induction l with
  | nil => simp [insortStr]
  | cons a t ih =>
    simp only [insortStr]
    split
    · simp
    · simp only [List.mem_cons, ih]
      tauto

theorem mem_pySorted (x : String) (l : List String) :
    x ∈ pySorted l ↔ x ∈ l := by
  induction l with
  | nil => simp [pySorted]
  | cons a t ih =>
    simp only [pySorted, List.foldr_cons] at *
    rw [mem_insortStr]
    simp [ih]

theorem pySorted_eq_nil (l : List String) : pySorted l = [] ↔ l = [] := by
  cases l with
  | nil => simp [pySorted]
  | cons a t =>
    simp only [pySorted, List.foldr_cons]
    constructor
    · intro h
      exact absurd h (insortStr_ne_nil _ _)
    · intro h
      cases h

theorem mem_pySortedSet (x : String) (l : List String) :
    x ∈ pySortedSet l ↔ x ∈ l := by
  rw [pySortedSet, mem_pySorted, List.mem_dedup]

theorem pySortedSet_eq_nil (l : List String) : pySortedSet l = [] ↔ l = [] := by
  rw [pySortedSet, pySorted_eq_nil, List.dedup_eq_nil]

/-- The slice `l[c : min (c+lim, |l|)]` is "drop `c`, then take `lim`". -/
theorem take_min_drop (l : List StatementRow) (c lim : Nat) :
    (l.take (min (c + lim) l.length)).drop c = (l.drop c).take lim := by
  rcases Nat.le_total (c + lim) l.length with h | h
  · rw [Nat.min_eq_left h, ← List.take_drop]
  · rw [Nat.min_eq_right h, List.take_length]
    rw [List.take_of_length_le (by simp; omega)]

/-- The `page` and `next_cursor` fields of `fnlttAllPageCore` are exactly one
`pageAt` step on the filtered sequence. -/
theorem fnlttAllPageCore_pageAt (rows : List StatementRow) (cursor limit : Nat)
    (sj_div sj_div_in : Option String) :
    ((fnlttAllPageCore rows cursor limit sj_div sj_div_in).page,
      (fnlttAllPageCore rows cursor limit sj_div sj_div_in).next_cursor)
      = pageAt (fnlttFiltered rows sj_div sj_div_in) cursor limit := rfl

/-- Following `next_cursor` from `cursor` and concatenating the pages yields
the remainder of the filtered sequence from `cursor` on. -/
theorem collectPages_eq_drop (l : List StatementRow) (limit : Nat) (hl : 0 < limit) :
    ∀ cursor, collectPages l limit cursor = l.drop cursor := by
  have main : ∀ n cursor, l.length - cursor ≤ n →
      collectPages l limit cursor = l.drop cursor := by
    intro n
    induction n with
    | zero =>
      intro cursor hc
      rw [collectPages.eq_def, dif_pos hl]
      split
      · have he : min (cursor + limit) l.length = l.length :=
          Nat.min_eq_right (by omega)
        simp [pageAt, he]
      · rename_i c hnc
        simp only [pageAt] at hnc
        split at hnc
        · rename_i hcond
          rw [Nat.min_eq_right (by omega : l.length ≤ cursor + limit)] at hcond
          exact absurd hcond (lt_irrefl _)
        · cases hnc
    | succ n ih =>
      intro cursor hc
      rw [collectPages.eq_def, dif_pos hl]
      split
      · rename_i hnc
        simp only [pageAt] at hnc
        split at hnc
        · cases hnc
        · rename_i hcond
          have hge : l.length ≤ cursor + limit := by
            by_contra hx
            exact hcond (by rw [Nat.min_eq_left (by omega)]; omega)
          have he : min (cursor + limit) l.length = l.length :=
            Nat.min_eq_right hge
          simp [pageAt, he]
      · rename_i c hnc
        simp only [pageAt] at hnc
        split at hnc
        · rename_i hcond
          have hlt : cursor + limit < l.length := by
            by_contra hx
            rw [Nat.min_eq_right (by omega)] at hcond
            exact absurd hcond (lt_irrefl _)
          have hmin : min (cursor + limit) l.length = cursor + limit :=
            Nat.min_eq_left (by omega)
          rw [hmin] at hnc
          cases hnc
          rw [ih (cursor + limit) (by omega)]
          simp only [pageAt, hmin]
          rw [← List.take_drop]
          have hdd : l.drop (cursor + limit) = (l.drop cursor).drop limit := by
            rw [List.drop_drop, Nat.add_comm]
          rw [hdd, List.take_append_drop]
        · cases hnc
  intro cursor
  exact main (l.length - cursor) cursor (Nat.le_refl _)

/-- `dictGet` after `dictInsert`: the inserted key reads back the new value,
every other key is untouched (Python dict assignment semantics). -/
theorem dictGet_dictInsert (m : List (String × CorpEntry)) (k k' : String) (v : CorpEntry) :
    dictGet (dictInsert m k v) k' = if k' = k then some v else dictGet m k' := by
  unfold dictGet dictInsert
  by_cases h : k' = k
  · subst h
    simp [List.find?_cons]
  · simp only [List.find?_cons]
    have : (decide ((k, v).1 = k')) = false := by
      simp
      exact fun hx => h hx.symm
    rw [this, if_neg h]

/-- Modelled from the spec: "later records with the same ticker overwrite
earlier ones — last-wins, input-order-dependent".  The last valid record in
document order whose (stripped) stock code equals `k`, phrased as the first
match in the reversed document. -/
def lastWins (nodes : List XmlNode) (k : String) : Option CorpEntry :=
  (nodes.reverse.find?
    (fun n => recordValid n && (fieldText n.stock_code = k))).map entryOf

/-- The mapping built from a parsed manifest looks up every ticker to the
last valid record carrying it. -/
theorem buildCorpMap_get (nodes : List XmlNode) (k : String) :
    dictGet (buildCorpMap nodes) k = lastWins nodes k := by
  induction nodes using List.reverseRecOn with
  | nil => rfl
  | append_singleton t n ih =>
    have hfold : buildCorpMap (t ++ [n])
        = (if recordValid n
           then dictInsert (buildCorpMap t) (fieldText n.stock_code) (entryOf n)
           else buildCorpMap t) := by
      unfold buildCorpMap
      rw [List.foldl_append]
      rfl
    rw [hfold]
    unfold lastWins
    rw [List.reverse_append]
    simp only [List.reverse_singleton, List.singleton_append, List.find?_cons]
    by_cases hv : recordValid n
    · by_cases hk : fieldText n.stock_code = k
      · rw [if_pos hv, dictGet_dictInsert, if_pos hk.symm]
        rw [show (recordValid n && decide (fieldText n.stock_code = k)) = true by
          simp [hv, hk]]
        rfl
      · rw [if_pos hv, dictGet_dictInsert, if_neg (fun hx => hk hx.symm)]
        rw [show (recordValid n && decide (fieldText n.stock_code = k)) = false by
          simp [hk]]
        exact ih
    · rw [if_neg hv]
      rw [show (recordValid n && decide (fieldText n.stock_code = k)) = false by
        simp [hv]]
      exact ih

/-! ### Concrete fixtures used by the witnesses and counterexamples -/

/-- A small raw row set: BS, an out-of-scope tag, IS, CF. -/
def exRows : List StatementRow :=
  [⟨some "BS", 0⟩, ⟨some "XX", 1⟩, ⟨some "IS", 2⟩, ⟨some "CF", 3⟩]

def sampleEntry : CorpEntry :=
  { corp_code := "00126380", corp_name := "SAMSUNG ELECTRONICS"
    stock_code := "005930", modify_date := "20240101" }

/-- A resolver snapshot seeded at time 0 with one ticker. -/
def seededState : ResolverState :=
  { corp_map := [("005930", sampleEntry)], corp_map_ts := some 0 }

def compOk : CompanyResp :=
  { status := "000", message := "NORMAL", acc_mt := some "12" }

/-! ### Claims -/

/-- C1: for every fnltt_all request (cursor ≥ 0 via the route check, modeled
by `Nat`), `total_rows` is the filtered length, the returned page is the
filtered sub-sequence from `cursor` to `min (cursor+limit) total_rows`
(half-open, zero-based, order preserved — equivalently drop `cursor` then
take `limit`), `next_cursor` is that upper bound exactly when it is strictly
below `total_rows` and absent otherwise, and any cursor at or beyond
`total_rows` yields an empty page with `next_cursor` absent. -/
theorem C1_fnltt_all_pagination (rows : List StatementRow) (cursor limit : Nat)
    (sj_div sj_div_in : Option String) :
    (fnlttAllPageCore rows cursor limit sj_div sj_div_in).total_rows
      = (fnlttFiltered rows sj_div sj_div_in).length
  ∧ (fnlttAllPageCore rows cursor limit sj_div sj_div_in).page
      = ((fnlttFiltered rows sj_div sj_div_in).take
          (min (cursor + limit) (fnlttFiltered rows sj_div sj_div_in).length)).drop cursor
  ∧ (fnlttAllPageCore rows cursor limit sj_div sj_div_in).page
      = ((fnlttFiltered rows sj_div sj_div_in).drop cursor).take limit
  ∧ (fnlttAllPageCore rows cursor limit sj_div sj_div_in).next_cursor
      = (if cursor + limit < (fnlttFiltered rows sj_div sj_div_in).length
         then some (cursor + limit) else none)
  ∧ ((fnlttFiltered rows sj_div sj_div_in).length ≤ cursor →
        (fnlttAllPageCore rows cursor limit sj_div sj_div_in).page = []
      ∧ (fnlttAllPageCore rows cursor limit sj_div sj_div_in).next_cursor = none) := by
  refine ⟨rfl, rfl, ?_, ?_, ?_⟩
  · exact take_min_drop _ cursor limit
  · show (if min (cursor + limit) (fnlttFiltered rows sj_div sj_div_in).length
            < (fnlttFiltered rows sj_div sj_div_in).length
          then some (min (cursor + limit) (fnlttFiltered rows sj_div sj_div_in).length)
          else none) = _
    by_cases h : cursor + limit < (fnlttFiltered rows sj_div sj_div_in).length
    · rw [Nat.min_eq_left (by omega), if_pos h]
    · rw [Nat.min_eq_right (by omega), if_neg (lt_irrefl _), if_neg h]
  · intro hc
    constructor
    · show ((fnlttFiltered rows sj_div sj_div_in).take
          (min (cursor + limit) (fnlttFiltered rows sj_div sj_div_in).length)).drop cursor = []
      rw [take_min_drop, List.drop_eq_nil_of_le hc, List.take_nil]
    · show (if min (cursor + limit) (fnlttFiltered rows sj_div sj_div_in).length
            < (fnlttFiltered rows sj_div sj_div_in).length
          then some (min (cursor + limit) (fnlttFiltered rows sj_div sj_div_in).length)
          else none) = none
      rw [Nat.min_eq_right (by omega), if_neg (lt_irrefl _)]

/-- Witness for C1 at a concrete request whose cursor lies beyond the
filtered length. -/
theorem C1_fnltt_all_pagination_witness :
    (fnlttAllPageCore exRows 5 50 none none).page = []
  ∧ (fnlttAllPageCore exRows 5 50 none none).next_cursor = none :=
  (C1_fnltt_all_pagination exRows 5 50 none none).2.2.2.2 (by decide)

/-- C2: for every filtered sequence of length N, cursor ∈ [0,N] and
limit > 0, the page has length `min limit (N - cursor)`; one paginator page
is exactly one `pageAt` step on the filtered sequence; and following
`next_cursor` from 0 and concatenating the pages reproduces the filtered
sequence exactly, in order. -/
theorem C2_page_length_and_concat (rows : List StatementRow) (cursor limit : Nat)
    (sj_div sj_div_in : Option String)
    (hcur : cursor ≤ (fnlttFiltered rows sj_div sj_div_in).length)
    (hlim : 0 < limit) :
    (fnlttAllPageCore rows cursor limit sj_div sj_div_in).page.length
      = min limit ((fnlttFiltered rows sj_div sj_div_in).length - cursor)
  ∧ ((fnlttAllPageCore rows cursor limit sj_div sj_div_in).page,
      (fnlttAllPageCore rows cursor limit sj_div sj_div_in).next_cursor)
      = pageAt (fnlttFiltered rows sj_div sj_div_in) cursor limit
  ∧ collectPages (fnlttFiltered rows sj_div sj_div_in) limit 0
      = fnlttFiltered rows sj_div sj_div_in := by
  refine ⟨?_, rfl, ?_⟩
  · have hpage : (fnlttAllPageCore rows cursor limit sj_div sj_div_in).page
        = ((fnlttFiltered rows sj_div sj_div_in).drop cursor).take limit :=
      take_min_drop _ cursor limit
    rw [hpage, List.length_take, List.length_drop]
  · rw [collectPages_eq_drop _ limit hlim 0, List.drop_zero]

/-- Witness for C2 at a concrete request. -/
theorem C2_page_length_and_concat_witness :
    (fnlttAllPageCore exRows 1 50 none none).page.length
      = min 50 ((fnlttFiltered exRows none none).length - 1)
  ∧ ((fnlttAllPageCore exRows 1 50 none none).page,
      (fnlttAllPageCore exRows 1 50 none none).next_cursor)
      = pageAt (fnlttFiltered exRows none none) 1 50
  ∧ collectPages (fnlttFiltered exRows none none) 50 0
      = fnlttFiltered exRows none none :=
  C2_page_length_and_concat exRows 1 50 none none (by decide) (by decide)

/-- C3: the effective statement-type set is the intersection of the requested
set with the fixed 5-member allowlist, and when that intersection is empty
(e.g. only invalid codes were requested) it is the full 5-member allowlist
(which is also what `REQUIRED_SJ_DIV` lists), never an empty filter. -/
theorem C3_effective_set (sj_div sj_div_in : Option String) :
    ((∃ x ∈ parse_sj_div_requested sj_div sj_div_in, x ∈ SJ_DIV_ALLOWLIST_DEFAULT) →
      ∀ t, (t ∈ effective_sj_div (parse_sj_div_requested sj_div sj_div_in) ↔
        (t ∈ parse_sj_div_requested sj_div sj_div_in ∧ t ∈ SJ_DIV_ALLOWLIST_DEFAULT)))
  ∧ ((∀ x ∈ parse_sj_div_requested sj_div sj_div_in, x ∉ SJ_DIV_ALLOWLIST_DEFAULT) →
      effective_sj_div (parse_sj_div_requested sj_div sj_div_in) = REQUIRED_SJ_DIV)
  ∧ REQUIRED_SJ_DIV = SJ_DIV_ALLOWLIST_DEFAULT := by
  have hfix := parse_requested_upper_fixed sj_div sj_div_in
  refine ⟨?_, ?_, rfl⟩
  · intro hx t
    unfold effective_sj_div
    rw [hfix]
    have hne : (parse_sj_div_requested sj_div sj_div_in).filter
        (fun x => x ∈ SJ_DIV_ALLOWLIST_DEFAULT) ≠ [] := by
      rcases hx with ⟨x, hxr, hxa⟩
      intro hnil
      have : x ∈ ([] : List String) := by
        rw [← hnil]
        exact List.mem_filter.mpr ⟨hxr, by simpa using hxa⟩
      simp at this
    rw [if_pos (by simpa [pySortedSet_eq_nil] using hne)]
    rw [mem_pySortedSet, List.mem_filter]
    simp
  · intro hall
    unfold effective_sj_div
    rw [hfix]
    have hnil : (parse_sj_div_requested sj_div sj_div_in).filter
        (fun x => x ∈ SJ_DIV_ALLOWLIST_DEFAULT) = [] := by
      rw [List.filter_eq_nil_iff]
      intro x hxr
      simpa using hall x hxr
    rw [hnil]
    rw [if_neg (by simp [pySortedSet_eq_nil])]
    rfl

/-- Witness for C3: a valid lowercase request behaves as intersection; an
all-invalid request falls back to the full allowlist. -/
theorem C3_effective_set_witness :
    ("BS" ∈ effective_sj_div (parse_sj_div_requested (some "bs") none) ↔
      ("BS" ∈ parse_sj_div_requested (some "bs") none
        ∧ "BS" ∈ SJ_DIV_ALLOWLIST_DEFAULT))
  ∧ effective_sj_div (parse_sj_div_requested none (some "zz, qq"))
      = REQUIRED_SJ_DIV :=
  ⟨(C3_effective_set (some "bs") none).1 (by decide) "BS",
   (C3_effective_set none (some "zz, qq")).2.1 (by decide)⟩

/-- C4: the missing set is exactly the members of the fixed 5-member required
set whose tag appears on no raw (unfiltered) cached row, and it is computed
independently of the requested filter (and of cursor/limit): two requests
against the same cached rows always report the same missing set. -/
theorem C4_missing_set (rows : List StatementRow) :
    (∀ t, t ∈ missing_required_from_rows rows ↔
        (t ∈ REQUIRED_SJ_DIV ∧ ∀ r ∈ rows, rowTag r ≠ t))
  ∧ (∀ cursor1 limit1 cursor2 limit2 sj1 sji1 sj2 sji2,
      (fnlttAllPageCore rows cursor1 limit1 sj1 sji1).missing
        = (fnlttAllPageCore rows cursor2 limit2 sj2 sji2).missing) := by
  constructor
  · intro t
    unfold missing_required_from_rows
    rw [mem_pySortedSet, List.mem_filter]
    simp [List.mem_map]
  · intro cursor1 limit1 cursor2 limit2 sj1 sji1 sj2 sji2
    rfl

/-- Witness for C4 at concrete rows and two concretely different filters. -/
theorem C4_missing_set_witness :
    ("CIS" ∈ missing_required_from_rows exRows ↔
      ("CIS" ∈ REQUIRED_SJ_DIV ∧ ∀ r ∈ exRows, rowTag r ≠ "CIS"))
  ∧ (fnlttAllPageCore exRows 0 50 (some "BS") none).missing
      = (fnlttAllPageCore exRows 0 50 none (some "IS,CF")).missing :=
  ⟨(C4_missing_set exRows).1 "CIS",
   (C4_missing_set exRows).2 0 50 0 50 (some "BS") none none (some "IS,CF")⟩

/-- C5: on a statement-cache miss or stale entry, the fetched response is
cached iff its embedded status is "000" (as-is) or "013" (rows normalized to
empty); any other status produces the 502 upstream error and leaves the
entry for the key unchanged. -/
theorem C5_cache_fill (entry : Option (UpstreamResp × Int)) (now : Int)
    (fetched : UpstreamResp)
    (hmiss : entry = none
      ∨ ∃ c ts, entry = some (c, ts) ∧ now - ts > FS_CACHE_TTL_SEC) :
    (fetched.status = "000" →
      fnlttCacheStep entry now fetched = (Except.ok fetched, some (fetched, now)))
  ∧ (fetched.status = "013" →
      fnlttCacheStep entry now fetched
        = (Except.ok { fetched with rows := [] },
           some ({ fetched with rows := [] }, now)))
  ∧ (fetched.status ≠ "000" → fetched.status ≠ "013" →
      fnlttCacheStep entry now fetched
        = (Except.error (ProxyError.http 502
            ("OpenDART status=" ++ fetched.status ++ " message=" ++ fetched.message)),
           entry)) := by
  have hstep : fnlttCacheStep entry now fetched = fnlttFetchInstall entry now fetched := by
    rcases hmiss with h | ⟨c, ts, h, hstale⟩
    · rw [h]
      rfl
    · rw [h]
      unfold fnlttCacheStep
      dsimp only
      rw [if_pos hstale]
  refine ⟨?_, ?_, ?_⟩
  · intro h000
    rw [hstep]
    unfold fnlttFetchInstall guard_dart_status
    rw [if_pos h000]
    rw [if_neg (by rw [h000]; decide)]
  · intro h013
    rw [hstep]
    unfold fnlttFetchInstall guard_dart_status
    rw [if_neg (by rw [h013]; decide), if_pos (by rw [h013]; decide)]
    rw [if_pos h013]
  · intro h000 h013
    rw [hstep]
    unfold fnlttFetchInstall guard_dart_status
    rw [if_neg h000, if_neg (by simp [h013])]

/-- Witness for C5: a miss with an error status is rejected with 502 and the
entry stays absent. -/
theorem C5_cache_fill_witness :
    fnlttCacheStep none 0 { status := "900", message := "ERR", rows := [] }
      = (Except.error (ProxyError.http 502 "OpenDART status=900 message=ERR"), none) := by
  have h := (C5_cache_fill none 0 { status := "900", message := "ERR", rows := [] }
    (Or.inl rfl)).2.2 (by decide) (by decide)
  exact h

/-- C6 counterexample: with a stale snapshot that contains the requested
ticker, a failed refresh is NOT served from the previous snapshot — the
transport error propagates to the caller even though this is not a cold
start.  (The previous snapshot does remain installed.) -/
theorem C6_counterexample :
    (corp_from_stock_code seededState 86400
        (ManifestFetch.transportError "manifest fetch failed") "005930").result
      = Except.error (ProxyError.transport "manifest fetch failed")
  ∧ (corp_from_stock_code seededState 86400
        (ManifestFetch.transportError "manifest fetch failed") "005930").result
      ≠ Except.ok sampleEntry
  ∧ seededState.corp_map ≠ []
  ∧ seededState.corp_map_ts = some 0
  ∧ dictGet seededState.corp_map "005930" = some sampleEntry := by
  refine ⟨by decide, by decide, by decide, by decide, by decide⟩

/-- C6 (amended): a failed refresh leaves the previous snapshot installed and
unchanged, but the failure propagates to the caller whether or not a
snapshot exists — the stale snapshot is not used to serve the operation.
Only a fresh, nonempty snapshot (which triggers no refresh) guarantees the
operation is served from memory. -/
theorem C6_stale_snapshot (st : ResolverState) (now : Int) (fetch : ManifestFetch)
    (stock_code : String) :
    (∀ e, (refresh_corp_map_if_needed st now fetch).err = some e →
        (refresh_corp_map_if_needed st now fetch).state = st
      ∧ (corp_from_stock_code st now fetch stock_code).result = Except.error e
      ∧ (corp_from_stock_code st now fetch stock_code).state = st)
  ∧ (∀ ts, st.corp_map_ts = some ts → now - ts < CORP_MAP_TTL_SEC →
      st.corp_map ≠ [] →
      (corp_from_stock_code st now fetch stock_code).state = st
      ∧ (corp_from_stock_code st now fetch stock_code).result
        = (match dictGet st.corp_map stock_code with
           | some info => Except.ok info
           | none =>
             Except.error (ProxyError.http 404 ("Unknown stock_code: " ++ stock_code)))) := by
  obtain ⟨m, mts⟩ := st
  have hdo : ∀ e, (doCorpRefresh ⟨m, mts⟩ now fetch).err = some e →
      (doCorpRefresh ⟨m, mts⟩ now fetch).state = ⟨m, mts⟩ := by
    intro e2 he2
    rcases fetch with msg | _ | nodes
    · rfl
    · rfl
    · unfold doCorpRefresh at he2 ⊢
      dsimp only at he2 ⊢
      split at he2
      · rw [if_pos (by assumption)]
      · exact Option.noConfusion he2
  have hstate : ∀ e, (refresh_corp_map_if_needed ⟨m, mts⟩ now fetch).err = some e →
      (refresh_corp_map_if_needed ⟨m, mts⟩ now fetch).state = ⟨m, mts⟩ := by
    intro e he
    rcases mts with _ | ts
    · exact hdo e he
    · unfold refresh_corp_map_if_needed at he ⊢
      dsimp only at he ⊢
      split at he
      · exact Option.noConfusion he
      · rw [if_neg (by assumption)]
        exact hdo e he
  have hres : ∀ e, (refresh_corp_map_if_needed ⟨m, mts⟩ now fetch).err = some e →
      corp_from_stock_code ⟨m, mts⟩ now fetch stock_code
        = { result := Except.error e
            state := (refresh_corp_map_if_needed ⟨m, mts⟩ now fetch).state
            fetchPerformed := (refresh_corp_map_if_needed ⟨m, mts⟩ now fetch).fetchPerformed } := by
    intro e he
    unfold corp_from_stock_code
    dsimp only
    rw [he]
  constructor
  · intro e he
    refine ⟨hstate e he, ?_, ?_⟩
    · rw [hres e he]
    · rw [hres e he]
      exact hstate e he
  · intro ts hts hfresh hne
    dsimp only at hts
    subst hts
    dsimp only at hfresh hne
    have hr : refresh_corp_map_if_needed ⟨m, some ts⟩ now fetch
        = { err := none, state := ⟨m, some ts⟩, fetchPerformed := false } := by
      unfold refresh_corp_map_if_needed
      dsimp only
      rw [if_pos (And.intro hfresh hne)]
    unfold corp_from_stock_code
    dsimp only
    rw [hr]
    dsimp only
    rcases hd : dictGet m stock_code with _ | info
    · simp [hd]
    · simp [hd]

/-- Witness for C6 (amended): the stale seeded snapshot survives a failed
refresh unchanged while the error surfaces; the fresh seeded snapshot serves
the lookup from memory. -/
theorem C6_stale_snapshot_witness :
    ((refresh_corp_map_if_needed seededState 86400
        (ManifestFetch.transportError "boom")).state = seededState
      ∧ (corp_from_stock_code seededState 86400
          (ManifestFetch.transportError "boom") "005930").result
        = Except.error (ProxyError.transport "boom")
      ∧ (corp_from_stock_code seededState 86400
          (ManifestFetch.transportError "boom") "005930").state = seededState)
  ∧ ((corp_from_stock_code seededState 100
        (ManifestFetch.transportError "boom") "005930").state = seededState
      ∧ (corp_from_stock_code seededState 100
          (ManifestFetch.transportError "boom") "005930").result
        = (match dictGet seededState.corp_map "005930" with
           | some info => Except.ok info
           | none =>
             Except.error (ProxyError.http 404 ("Unknown stock_code: " ++ "005930")))) :=
  ⟨(C6_stale_snapshot seededState 86400 (ManifestFetch.transportError "boom")
      "005930").1 (ProxyError.transport "boom") (by decide),
   (C6_stale_snapshot seededState 100 (ManifestFetch.transportError "boom")
      "005930").2 0 (by decide) (by decide) (by decide)⟩

/-- C7: the refreshed mapping looks every ticker up to the LAST valid record
(6-character stock code, 8-character corp code after stripping) carrying it
— keys exist exactly for tickers of valid records, later records overwrite
earlier ones — and a manifest with no XML file, or one whose valid records
build an empty mapping, fails with a fatal error and leaves the installed
snapshot and timestamp unchanged. -/
theorem C7_manifest_build (nodes : List XmlNode) (st : ResolverState) (now : Int)
    (k : String) :
    dictGet (buildCorpMap nodes) k = lastWins nodes k
  ∧ ((dictGet (buildCorpMap nodes) k).isSome ↔
      ∃ n ∈ nodes, recordValid n ∧ fieldText n.stock_code = k)
  ∧ doCorpRefresh st now ManifestFetch.noXml
      = { err := some (ProxyError.runtime "corpCode zip has no XML file")
          state := st, fetchPerformed := true }
  ∧ (buildCorpMap nodes = [] →
      doCorpRefresh st now (ManifestFetch.parsed nodes)
        = { err := some (ProxyError.runtime "corpCode parse produced empty mapping")
            state := st, fetchPerformed := true })
  ∧ (buildCorpMap nodes ≠ [] →
      doCorpRefresh st now (ManifestFetch.parsed nodes)
        = { err := none
            state := { corp_map := buildCorpMap nodes, corp_map_ts := some now }
            fetchPerformed := true }) := by
  refine ⟨buildCorpMap_get nodes k, ?_, rfl, ?_, ?_⟩
  · rw [buildCorpMap_get nodes k]
    unfold lastWins
    rw [Option.isSome_map']
    rw [List.find?_isSome]
    constructor
    · rintro ⟨n, hn, hp⟩
      refine ⟨n, List.mem_reverse.mp hn, ?_⟩
      simpa using hp
    · rintro ⟨n, hn, hp⟩
      refine ⟨n, List.mem_reverse.mpr hn, ?_⟩
      simpa using hp
  · intro hnil
    unfold doCorpRefresh
    simp only
    rw [if_pos hnil]
  · intro hne
    unfold doCorpRefresh
    simp only
    rw [if_neg hne]

/-- Witness for C7: two valid records for the same ticker (last wins), one
invalid record, and the empty/no-XML failure cases at a concrete state. -/
theorem C7_manifest_build_witness :
    dictGet (buildCorpMap
        [⟨some "00000001", some "A", some "005930", some "d1"⟩,
         ⟨some "123", some "B", some "005935", some "d2"⟩,
         ⟨some "00000002", some "C", some "005930", some "d3"⟩]) "005930"
      = lastWins
        [⟨some "00000001", some "A", some "005930", some "d1"⟩,
         ⟨some "123", some "B", some "005935", some "d2"⟩,
         ⟨some "00000002", some "C", some "005930", some "d3"⟩] "005930"
  ∧ doCorpRefresh seededState 5 (ManifestFetch.parsed
        [⟨some "123", some "B", some "005935", some "d2"⟩])
      = { err := some (ProxyError.runtime "corpCode parse produced empty mapping")
          state := seededState, fetchPerformed := true } :=
  ⟨(C7_manifest_build
      [⟨some "00000001", some "A", some "005930", some "d1"⟩,
       ⟨some "123", some "B", some "005935", some "d2"⟩,
       ⟨some "00000002", some "C", some "005930", some "d3"⟩]
      seededState 5 "005930").1,
   (C7_manifest_build [⟨some "123", some "B", some "005935", some "d2"⟩]
      seededState 5 "005930").2.2.2.1 (by decide)⟩

/-- C8 counterexample: with a present and fresh snapshot, an `op=resolve`
call still performs an upstream `company.json` call — it is not a pure
in-memory lookup with no upstream call (only the ticker→identifier step
skips the network). -/
theorem C8_counterexample :
    (resolve_stock_code seededState 100 (ManifestFetch.transportError "unused")
        compOk "005930").companyFetchPerformed = true
  ∧ (resolve_stock_code seededState 100 (ManifestFetch.transportError "unused")
        compOk "005930").manifestFetchPerformed = false
  ∧ seededState.corp_map_ts = some 0 ∧ seededState.corp_map ≠ [] := by
  refine ⟨by decide, by decide, by decide, by decide⟩

/-- C8 (amended): the ticker→identifier lookup (`_corp_from_stock_code`)
performs no upstream call when the snapshot is present, fresh and nonempty —
it is a pure in-memory lookup leaving the state unchanged — but
`_resolve_stock_code` (op=resolve) additionally performs one `company.json`
upstream call whenever the ticker lookup succeeds (and only then). -/
theorem C8_resolver_lookup_pure (st : ResolverState) (now : Int)
    (fetch : ManifestFetch) (comp : CompanyResp) (stock_code : String) :
    (∀ ts, st.corp_map_ts = some ts → now - ts < CORP_MAP_TTL_SEC →
      st.corp_map ≠ [] →
        (corp_from_stock_code st now fetch stock_code).fetchPerformed = false
      ∧ (corp_from_stock_code st now fetch stock_code).state = st
      ∧ (corp_from_stock_code st now fetch stock_code).result
          = (match dictGet st.corp_map stock_code with
             | some info => Except.ok info
             | none => Except.error
                 (ProxyError.http 404 ("Unknown stock_code: " ++ stock_code))))
  ∧ (∀ info, (corp_from_stock_code st now fetch stock_code).result = Except.ok info →
      (resolve_stock_code st now fetch comp stock_code).companyFetchPerformed = true)
  ∧ (∀ e, (corp_from_stock_code st now fetch stock_code).result = Except.error e →
      (resolve_stock_code st now fetch comp stock_code).companyFetchPerformed = false) := by
  refine ⟨?_, ?_, ?_⟩
  · intro ts hts hfresh hne
    obtain ⟨m, mts⟩ := st
    dsimp only at hts hfresh hne
    subst hts
    have hr : refresh_corp_map_if_needed ⟨m, some ts⟩ now fetch
        = { err := none, state := ⟨m, some ts⟩, fetchPerformed := false } := by
      unfold refresh_corp_map_if_needed
      dsimp only
      rw [if_pos (And.intro hfresh hne)]
    unfold corp_from_stock_code
    dsimp only
    rw [hr]
    dsimp only
    rcases hd : dictGet m stock_code with _ | info
    · simp [hd]
    · simp [hd]
  · intro info hok
    unfold resolve_stock_code
    dsimp only
    rw [hok]
    dsimp only
    rcases guard_company_status comp with e | u
    · rfl
    · rfl
  · intro e herr
    unfold resolve_stock_code
    dsimp only
    rw [herr]

/-- Witness for C8 (amended) at the seeded snapshot: fresh lookup is pure and
found, and the resolve path performs the company call. -/
theorem C8_resolver_lookup_pure_witness :
    ((corp_from_stock_code seededState 100 (ManifestFetch.transportError "unused")
        "005930").fetchPerformed = false
      ∧ (corp_from_stock_code seededState 100 (ManifestFetch.transportError "unused")
          "005930").state = seededState
      ∧ (corp_from_stock_code seededState 100 (ManifestFetch.transportError "unused")
          "005930").result
          = (match dictGet seededState.corp_map "005930" with
             | some info => Except.ok info
             | none => Except.error
                 (ProxyError.http 404 ("Unknown stock_code: " ++ "005930"))))
  ∧ (resolve_stock_code seededState 100 (ManifestFetch.transportError "unused")
      compOk "005930").companyFetchPerformed = true :=
  ⟨(C8_resolver_lookup_pure seededState 100 (ManifestFetch.transportError "unused")
      compOk "005930").1 0 (by decide) (by decide) (by decide),
   (C8_resolver_lookup_pure seededState 100 (ManifestFetch.transportError "unused")
      compOk "005930").2.1 sampleEntry (by decide)⟩

/-- C9: a ticker lookup never fails with the 502 upstream error — any HTTP
error it raises is exactly the 404 "Unknown stock_code" — and when the
refresh attempt succeeds and the ticker is absent from the (possibly new)
snapshot, the lookup fails with precisely that 404. -/
theorem C9_absent_ticker_404 (st : ResolverState) (now : Int) (fetch : ManifestFetch)
    (stock_code : String) :
    (∀ code d, (corp_from_stock_code st now fetch stock_code).result
        = Except.error (ProxyError.http code d) →
      code = 404 ∧ d = "Unknown stock_code: " ++ stock_code)
  ∧ ((refresh_corp_map_if_needed st now fetch).err = none →
      dictGet (refresh_corp_map_if_needed st now fetch).state.corp_map stock_code
        = none →
      (corp_from_stock_code st now fetch stock_code).result
        = Except.error (ProxyError.http 404 ("Unknown stock_code: " ++ stock_code))) := by
  obtain ⟨m, mts⟩ := st
  have hdoerr : ∀ code d, (doCorpRefresh ⟨m, mts⟩ now fetch).err
      ≠ some (ProxyError.http code d) := by
    intro code d h
    rcases fetch with msg | _ | nodes
    · exact ProxyError.noConfusion (Option.some.inj h)
    · exact ProxyError.noConfusion (Option.some.inj h)
    · unfold doCorpRefresh at h
      dsimp only at h
      split at h
      · exact ProxyError.noConfusion (Option.some.inj h)
      · exact Option.noConfusion h
  have hrerr : ∀ code d, (refresh_corp_map_if_needed ⟨m, mts⟩ now fetch).err
      ≠ some (ProxyError.http code d) := by
    intro code d h
    rcases mts with _ | ts
    · exact hdoerr code d h
    · unfold refresh_corp_map_if_needed at h
      dsimp only at h
      split at h
      · exact Option.noConfusion h
      · exact hdoerr code d h
  constructor
  · intro code d h
    unfold corp_from_stock_code at h
    dsimp only at h
    rcases hre : (refresh_corp_map_if_needed ⟨m, mts⟩ now fetch).err with _ | e
    · rw [hre] at h
      dsimp only at h
      rcases hd : dictGet (refresh_corp_map_if_needed ⟨m, mts⟩ now fetch).state.corp_map
          stock_code with _ | info
      · rw [hd] at h
        dsimp only at h
        have h2 := Except.error.inj h
        cases h2
        exact ⟨rfl, rfl⟩
      · rw [hd] at h
        dsimp only at h
        exact Except.noConfusion h
    · rw [hre] at h
      dsimp only at h
      have h2 := Except.error.inj h
      rw [h2] at hre
      exact absurd hre (hrerr code d)
  · intro hnone hd
    unfold corp_from_stock_code
    dsimp only
    rw [hnone]
    dsimp only
    rw [hd]

/-- Witness for C9: the seeded fresh snapshot lacks ticker "999999", and the
lookup fails with the 404. -/
theorem C9_absent_ticker_404_witness :
    (corp_from_stock_code seededState 100 (ManifestFetch.transportError "x")
        "999999").result
      = Except.error (ProxyError.http 404 ("Unknown stock_code: " ++ "999999")) :=
  (C9_absent_ticker_404 seededState 100 (ManifestFetch.transportError "x")
    "999999").2 (by decide) (by decide)

/-- C10: the lookback value actually used by op=list is
`max(3, min(10, lookback_years))` — silently clamped into [3,10], the
identity on in-range values, echoed in the response — and out-of-range
values are not rejected: the list operation never raises a 400 and the route
validation is independent of `lookback_years`. -/
theorem C10_lookback_clamp (x : Int) (data : UpstreamResp) (p : DartParams)
    (y : Int) :
    (listParams x).lookback_years_used = max 3 (min 10 x)
  ∧ 3 ≤ clampLookback x
  ∧ clampLookback x ≤ 10
  ∧ (3 ≤ x → x ≤ 10 → clampLookback x = x)
  ∧ (data.status = "000" →
      list_annual_business_reports x data
        = Except.ok { status := data.status, message := data.message
                      lookback_years := clampLookback x, items := data.rows })
  ∧ (∀ d, list_annual_business_reports x data
        ≠ Except.error (ProxyError.http 400 d))
  ∧ dartRouteValidate p = dartRouteValidate { p with lookback_years := y } := by
  refine ⟨rfl, ?_, ?_, ?_, ?_, ?_, rfl⟩
  · unfold clampLookback
    omega
  · unfold clampLookback
    omega
  · intro h3 h10
    unfold clampLookback
    omega
  · intro h000
    unfold list_annual_business_reports guard_dart_status
    dsimp only
    rw [if_pos h000]
  · intro d hcontra
    unfold list_annual_business_reports guard_dart_status at hcontra
    dsimp only at hcontra
    split at hcontra
    · rename_i e heq
      have h2 := Except.error.inj hcontra
      subst h2
      split at heq
      · exact Except.noConfusion heq
      · split at heq
        · exact Except.noConfusion heq
        · have h3 := Except.error.inj heq
          have h4 : (502 : Nat) = 400 := congrArg
            (fun pe => match pe with | ProxyError.http c _ => c | _ => 0) h3
          exact absurd h4 (by decide)
    · exact Except.noConfusion hcontra

/-- Witness for C10 at lookback 7 (in range) and a successful list body. -/
theorem C10_lookback_clamp_witness :
    (listParams 7).lookback_years_used = max 3 (min 10 7)
  ∧ clampLookback 7 = 7
  ∧ list_annual_business_reports 7 { status := "000", message := "ok", rows := exRows }
      = Except.ok { status := "000", message := "ok"
                    lookback_years := clampLookback 7, items := exRows }
  ∧ dartRouteValidate
        { op := "list", stock_code := "005930", lookback_years := 7
          bsns_year := none, reprt_code := none, fs_div := "CFS"
          sj_div := none, sj_div_in := none, cursor := 0, limit := 100 }
      = dartRouteValidate
        { op := "list", stock_code := "005930", lookback_years := 42
          bsns_year := none, reprt_code := none, fs_div := "CFS"
          sj_div := none, sj_div_in := none, cursor := 0, limit := 100 } := by
  have h := C10_lookback_clamp 7 { status := "000", message := "ok", rows := exRows }
    { op := "list", stock_code := "005930", lookback_years := 7
      bsns_year := none, reprt_code := none, fs_div := "CFS"
      sj_div := none, sj_div_in := none, cursor := 0, limit := 100 } 42
  exact ⟨h.1, h.2.2.2.1 (by decide) (by decide), h.2.2.2.2.1 rfl, h.2.2.2.2.2.2⟩

end DartProxy
